import Mathlib

/-!
Shallow embedding of pycaching/cache.py (the Cache entity, its field setters,
the full population strategy Cache.load, the logbook and trackables
generators, and the Type/Size enumerations), together with theorems checking
the natural-language specification against this code.

Python strings are modelled as Lean String values; the string operations used
inline in cache.py (split, rsplit, strip, upper, lower, startswith, the `in`
substring test, float()/int() parsing, rot13) are implemented below with
structural recursion over the character list so that all definitions evaluate
inside the kernel.  External collaborators (document-tree queries, the
coordinate parser, date parsing) are modelled at their interface boundary as
the spec directs; such definitions say so in their doc comments.
-/

namespace Pycaching

/-- Whitespace test matching Python str.strip / str.split() defaults for the
characters that occur in the modelled documents. -/
def isSpaceChar (c : Char) : Bool :=
  c = ' ' || c = '\t' || c = '\n' || c = '\r'

/-- Drop leading whitespace characters. -/
def trimLeftC (l : List Char) : List Char := l.dropWhile isSpaceChar

/-- Drop leading and trailing whitespace, as Python str.strip(). -/
def trimC (l : List Char) : List Char :=
  ((trimLeftC l).reverse.dropWhile isSpaceChar).reverse

/-- Python str.strip() on a String. -/
def pyStrip (s : String) : String := ⟨trimC s.data⟩

/-- Python str.lower() on a String. -/
def pyLower (s : String) : String := ⟨s.data.map Char.toLower⟩

/-- Python str.upper() on a String. -/
def pyUpper (s : String) : String := ⟨s.data.map Char.toUpper⟩

/-- Auxiliary for splitting a character list on a separator character. -/
def splitCAux (sep : Char) : List Char → List Char → List (List Char)
  | [], acc => [acc.reverse]
  | c :: cs, acc =>
    if c = sep then acc.reverse :: splitCAux sep cs []
    else splitCAux sep cs (c :: acc)

/-- Python s.split(sep) for a one-character separator. -/
def pySplitChar (sep : Char) (s : String) : List String :=
  (splitCAux sep s.data []).map (fun l => ⟨l⟩)

/-- Check that the second list starts with the first one. -/
def startsW : List Char → List Char → Bool
  | [], _ => true
  | _ :: _, [] => false
  | n :: ns, h :: hs => n = h && startsW ns hs

/-- Python s.startswith(p). -/
def pyStartswith (s p : String) : Bool := startsW p.data s.data

/-- Python substring test `needle in hay` (for a non-empty needle). -/
def containsSub (needle : List Char) : List Char → Bool
  | [] => false
  | h :: t => startsW needle (h :: t) || containsSub needle t

/-- Python `needle in hay` on Strings (needle non-empty in all uses). -/
def pyIn (needle hay : String) : Bool := containsSub needle.data hay.data

/-- Split at the first occurrence of a non-empty needle, returning the parts
before and after it, or none when the needle does not occur. -/
def splitFirstSub (needle : List Char) : List Char → Option (List Char × List Char)
  | [] => none
  | h :: t =>
    if startsW needle (h :: t) then some ([], (h :: t).drop needle.length)
    else (splitFirstSub needle t).map (fun p => (h :: p.1, p.2))

/-- Python s.rsplit(sep, 1) for a one-character separator: parts before and
after the last occurrence, or none when the separator does not occur. -/
def rsplitOnceChar (sep : Char) (l : List Char) : Option (List Char × List Char) :=
  (splitFirstSub [sep] l.reverse).map (fun p => (p.2.reverse, p.1.reverse))

/-- Python s.rsplit(".", 1)[0], used for stripping a filename extension;
when there is no dot the whole string is returned (rsplit yields one part). -/
def filenameNoExt (s : String) : String :=
  match rsplitOnceChar '.' s.data with
  | some (before, _) => ⟨before⟩
  | none => s

/-- Python s.split("/")[-1]: the part after the last slash. -/
def lastSlashPart (s : String) : String :=
  match rsplitOnceChar '/' s.data with
  | some (_, after) => ⟨after⟩
  | none => s

/-- Auxiliary for Python str.split() with no argument (whitespace split,
empty parts removed). -/
def wsSplitAux : List Char → List Char → List (List Char)
  | [], acc => if acc.isEmpty then [] else [acc.reverse]
  | c :: cs, acc =>
    if isSpaceChar c then
      if acc.isEmpty then wsSplitAux cs [] else acc.reverse :: wsSplitAux cs []
    else wsSplitAux cs (c :: acc)

/-- Python s.split() (split on whitespace runs). -/
def pyWsSplit (s : String) : List String := (wsSplitAux s.data []).map (fun l => ⟨l⟩)

/-- Accumulate decimal digits; none when a non-digit appears.  An empty list
yields the accumulator, callers guard emptiness where Python would. -/
def digitsValAux : List Char → ℕ → Option ℕ
  | [], acc => some acc
  | c :: cs, acc =>
    if c.isDigit then digitsValAux cs (acc * 10 + (c.toNat - 48)) else none

/-- Parse an unsigned decimal float body (digits, optionally with one dot;
at least one digit overall), as accepted by Python float().  The value
i.f with k fractional digits is the rational (i*10^k + f) / 10^k, built
with Rat.divInt so that it evaluates inside the kernel. -/
def parseUFloat (cs : List Char) : Option ℚ :=
  match splitCAux '.' cs [] with
  | [a] =>
    if a.isEmpty then none
    else (digitsValAux a 0).map (fun n => Rat.divInt (n : ℤ) 1)
  | [a, b] =>
    if a.isEmpty && b.isEmpty then none
    else
      match digitsValAux a 0, digitsValAux b 0 with
      | some i, some f =>
        some (Rat.divInt ((i : ℤ) * (10 : ℤ) ^ b.length + (f : ℤ)) ((10 : ℤ) ^ b.length))
      | _, _ => none
  | _ => none

/-- Python float(s) for decimal literals: optional surrounding whitespace,
optional sign, digits with an optional dot. -/
def pyFloat (s : String) : Option ℚ :=
  match trimC s.data with
  | '-' :: rest => (parseUFloat rest).map (fun q => Rat.divInt (-q.num) q.den)
  | '+' :: rest => parseUFloat rest
  | rest => parseUFloat rest

/-- Python int(s): optional surrounding whitespace, optional sign, digits. -/
def pyParseInt (s : String) : Option ℤ :=
  match trimC s.data with
  | '-' :: rest =>
    if rest.isEmpty then none else (digitsValAux rest 0).map (fun n => -(n : ℤ))
  | '+' :: rest =>
    if rest.isEmpty then none else (digitsValAux rest 0).map (fun n => (n : ℤ))
  | rest =>
    if rest.isEmpty then none else (digitsValAux rest 0).map (fun n => (n : ℤ))

/-- Caesar-13 transform of one character (pycaching.util.rot13 elementwise). -/
def rot13Char (c : Char) : Char :=
  if 'a' ≤ c ∧ c ≤ 'z' then Char.ofNat ((c.toNat - 97 + 13) % 26 + 97)
  else if 'A' ≤ c ∧ c ≤ 'Z' then Char.ofNat ((c.toNat - 65 + 13) % 26 + 65)
  else c

/-- Modelled from the spec: the Caesar-cipher (rot13) text transform is an
external collaborator primitive (pycaching.util.rot13). -/
def rot13 (s : String) : String := ⟨s.data.map rot13Char⟩

/-- Remove every occurrence of a non-empty needle, scanning left to right
(Python s.replace(needle, "")); fuel-driven so that it evaluates by kernel
reduction, called with fuel = length of the list. -/
def removeAllFuel (needle : List Char) : ℕ → List Char → List Char
  | 0, l => l
  | _ + 1, [] => []
  | f + 1, h :: t =>
    if startsW needle (h :: t) && !needle.isEmpty then
      removeAllFuel needle f ((h :: t).drop needle.length)
    else h :: removeAllFuel needle f t

/-- Python s.replace(needle, "") for a non-empty needle. -/
def pyRemoveAll (needle s : String) : String :=
  ⟨removeAllFuel needle.data s.data.length s.data⟩

/-- Python exception kinds raised by the modelled code paths: the pycaching
error hierarchy (errors.ValueError, errors.LoadError, errors.PMOnlyException)
together with the builtin exceptions the code can let escape. -/
inductive Err where
  | valueError
  | loadError
  | pmOnly
  | attributeError
  | typeError
  | indexError
  | keyError
  deriving DecidableEq, Repr

/-- Modelled from the spec: the geographic point value type is an external
collaborator (pycaching.geo.Point); it is kept abstract as the coordinate
text it was built from. -/
structure Point where
  raw : String
  deriving DecidableEq, Repr

/-- Modelled from the spec: the coordinate parser Point.from_string is an
external collaborator primitive; it rejects text with no content and
otherwise yields a point value for that text. -/
def Point.from_string (s : String) : Except Err Point :=
  if (trimC s.data).isEmpty then .error .valueError else .ok ⟨pyStrip s⟩

/-- Modelled from the spec: the Point constructor applied to the raw
"lat, lng" text found in embedded script content behaves as the parser. -/
def Point.ofText (s : String) : Except Err Point := Point.from_string s

/-- Modelled from the spec: the date value type (datetime.date) is kept
abstract as its normalized text. -/
structure PyDate where
  raw : String
  deriving DecidableEq, Repr

/-- Modelled from the spec: pycaching.util.parse_date is an external
collaborator primitive; it rejects text with no content. -/
def parse_date (s : String) : Except Err PyDate :=
  if (trimC s.data).isEmpty then .error .valueError else .ok ⟨pyStrip s⟩

/-- Log data record of one logbook JSON entry, as read by load_logbook. -/
structure LogData where
  logTypeImage : String
  logText : String
  visited : String
  userName : String
  deriving DecidableEq, Repr

/-- Modelled from the spec: the Log collaborator type (pycaching.log.Log);
its classification enumeration is keyed by the server image-filename token,
kept abstract as that token. -/
structure LogRec where
  ltype : String
  text : String
  visited : String
  author : String
  deriving DecidableEq, Repr

/-- Construction of one Log from a logbook data record, as in load_logbook:
classification from the image filename without extension, then text, visit
date and author. -/
def mkLog (d : LogData) : LogRec :=
  { ltype := filenameNoExt d.logTypeImage
    text := d.logText
    visited := d.visited
    author := d.userName }

/-- Trackable stub yielded by load_trackables: name plus navigable URL. -/
structure TrackableRec where
  name : String
  url : String
  deriving DecidableEq, Repr

/-- Waypoint value entity (class Waypoint in cache.py). -/
structure Waypoint where
  identifier : String
  wtype : String
  location : Option Point
  note : String
  deriving DecidableEq, Repr

/-- One row pair of the waypoints table after the document-tree queries of
Waypoint.from_html (columns 4, 2, 6 and 10 of the concatenated cells); the
row pairing and cell extraction are document-query collaborator results. -/
structure WaypointRow where
  identifier : String
  wtype : String
  location_string : String
  note : String
  deriving DecidableEq, Repr

/-- Waypoint.from_html: a missing table yields the empty dictionary; each
row pair yields one Waypoint keyed by its stripped identifier, with an
unparsable location stored as None (the caught ValueError branch). -/
def Waypoint.from_html (table : Option (List WaypointRow)) : List (String × Waypoint) :=
  match table with
  | none => []
  | some rows =>
    rows.map (fun r =>
      let identifier := pyStrip r.identifier
      let loc : Option Point :=
        match Point.ofText r.location_string with
        | .ok p => some p
        | .error _ => none
      (identifier, ⟨identifier, r.wtype, loc, pyStrip r.note⟩))

/-- Enum of possible cache types (class Type in cache.py); Python aliases
(mystery = unknown, cito = cache_in_trash_out_event, locationless = reverse)
are single enum members and so single constructors here. -/
inductive CacheType where
  | traditional
  | multicache
  | mystery
  | letterbox
  | event
  | mega_event
  | giga_event
  | earthcache
  | cito
  | webcam
  | virtual
  | wherigo
  | lost_and_found_event
  | project_ape
  | groundspeak_hq
  | gps_adventures_exhibit
  | groundspeak_block_party
  | locationless
  deriving DecidableEq, Repr, Fintype

/-- The value of each Type member: the cache image filename token. -/
def CacheType.value : CacheType → String
  | .traditional => "2"
  | .multicache => "3"
  | .mystery => "8"
  | .letterbox => "5"
  | .event => "6"
  | .mega_event => "mega"
  | .giga_event => "giga"
  | .earthcache => "137"
  | .cito => "13"
  | .webcam => "11"
  | .virtual => "4"
  | .wherigo => "1858"
  | .lost_and_found_event => "10Years_32"
  | .project_ape => "ape_32"
  | .groundspeak_hq => "HQ_32"
  | .gps_adventures_exhibit => "1304"
  | .groundspeak_block_party => "4738"
  | .locationless => "12"

/-- Lookup of a Type member by its value, the Python enum call Type(x). -/
def CacheType.ofValue : String → Option CacheType
  | "2" => some .traditional
  | "3" => some .multicache
  | "8" => some .mystery
  | "5" => some .letterbox
  | "6" => some .event
  | "mega" => some .mega_event
  | "giga" => some .giga_event
  | "137" => some .earthcache
  | "13" => some .cito
  | "11" => some .webcam
  | "4" => some .virtual
  | "1858" => some .wherigo
  | "10Years_32" => some .lost_and_found_event
  | "ape_32" => some .project_ape
  | "HQ_32" => some .groundspeak_hq
  | "1304" => some .gps_adventures_exhibit
  | "4738" => some .groundspeak_block_party
  | "12" => some .locationless
  | _ => none

/-- Type.from_filename: the special-cased "earthcache" alias token maps to
"137", then the member is looked up by value; an unknown value raises. -/
def CacheType.from_filename (filename : String) : Except Err CacheType :=
  let filename := if filename = "earthcache" then "137" else filename
  match CacheType.ofValue filename with
  | some t => .ok t
  | none => .error .valueError

/-- Type.from_string: strips " Geocache" and " Cache" suffixes, lowercases
and trims, then looks the name up in the alias table; unknown names raise
errors.ValueError. -/
def CacheType.from_string (name : String) : Except Err CacheType :=
  let name := pyRemoveAll " Geocache" name
  let name := pyRemoveAll " Cache" name
  let name := pyStrip (pyLower name)
  match name with
  | "traditional" => .ok .traditional
  | "multi-cache" => .ok .multicache
  | "mystery" => .ok .mystery
  | "unknown" => .ok .mystery
  | "letterbox hybrid" => .ok .letterbox
  | "event" => .ok .event
  | "mega-event" => .ok .mega_event
  | "giga-event" => .ok .giga_event
  | "earthcache" => .ok .earthcache
  | "cito" => .ok .cito
  | "cache in trash out event" => .ok .cito
  | "webcam" => .ok .webcam
  | "virtual" => .ok .virtual
  | "wherigo" => .ok .wherigo
  | "lost and found event" => .ok .lost_and_found_event
  | "project ape" => .ok .project_ape
  | "groundspeak hq" => .ok .groundspeak_hq
  | "gps adventures exhibit" => .ok .gps_adventures_exhibit
  | "groundspeak block party" => .ok .groundspeak_block_party
  | "locationless (reverse)" => .ok .locationless
  | _ => .error .valueError

/-- Enum of possible cache sizes (class Size in cache.py). -/
inductive Size where
  | micro
  | small
  | regular
  | large
  | not_chosen
  | virtual
  | other
  deriving DecidableEq, Repr, Fintype

/-- The value of each Size member: its human readable name. -/
def Size.value : Size → String
  | .micro => "micro"
  | .small => "small"
  | .regular => "regular"
  | .large => "large"
  | .not_chosen => "not chosen"
  | .virtual => "virtual"
  | .other => "other"

/-- Lookup of a Size member by its value, the Python enum call Size(x). -/
def Size.ofValue : String → Option Size
  | "micro" => some .micro
  | "small" => some .small
  | "regular" => some .regular
  | "large" => some .large
  | "not chosen" => some .not_chosen
  | "virtual" => some .virtual
  | "other" => some .other
  | _ => none

/-- Size.from_string: strips and lowercases, then looks the member up by
value; unknown names raise errors.ValueError. -/
def Size.from_string (name : String) : Except Err Size :=
  match Size.ofValue (pyLower (pyStrip name)) with
  | some sz => .ok sz
  | none => .error .valueError

/-- Size.from_filename: Python Size[filename], lookup by member name; an
unknown name raises KeyError. -/
def Size.from_filename : String → Except Err Size
  | "micro" => .ok .micro
  | "small" => .ok .small
  | "regular" => .ok .regular
  | "large" => .ok .large
  | "not_chosen" => .ok .not_chosen
  | "virtual" => .ok .virtual
  | "other" => .ok .other
  | _ => .error .keyError

/-- Keys of Cache._possible_attributes, the static attribute registry. -/
def possible_attributes : List String :=
  ["abandonedbuilding", "available", "bicycles", "boat", "campfires",
   "camping", "cliff", "climbing", "cow", "danger", "dangerousanimals",
   "dogs", "fee", "field_puzzle", "firstaid", "flashlight", "food",
   "frontyard", "fuel", "geotour", "hike_long", "hike_med", "hike_short",
   "hiking", "horses", "hunting", "jeeps", "kids", "landf", "mine",
   "motorcycles", "night", "nightcache", "onehour", "parking", "parkngrab",
   "partnership", "phone", "picnic", "poisonoak", "public", "quads",
   "rappelling", "restrooms", "rv", "s-tool", "scenic", "scuba", "seasonal",
   "skiis", "snowmobiles", "snowshoes", "stealth", "stroller", "swimming",
   "teamwork", "thorn", "ticks", "touristok", "treeclimbing", "uv",
   "wading", "water", "wheelchair", "winter", "wirelessbeacon"]

/-- Python runtime values as they reach the Cache setters.  The tag records
the exact runtime type, so that the code's `_type(x) is T` identity checks
can be distinguished from instance-of checks: pdatetime is an instance of a
proper subclass of datetime.date, ppointSub of a proper subclass of Point.
Dictionary values reaching the attributes setter are booleans in all
modelled scenarios. -/
inductive PyVal where
  | pstr (s : String)
  | pnum (q : ℚ)
  | pbool (b : Bool)
  | pnone
  | pdate (d : PyDate)
  | pdatetime (d : PyDate)
  | ppoint (p : Point)
  | ppointSub (p : Point)
  | pdict (entries : List (PyVal × Bool))
  | ptype (t : CacheType)
  | psize (sz : Size)
  | pelem

/-- Python truthiness of a value (bool(x)). -/
def pyTruthy : PyVal → Bool
  | .pstr s => !s.isEmpty
  | .pnum q => q ≠ 0
  | .pbool b => b
  | .pnone => false
  | .pdict entries => !entries.isEmpty
  | _ => true

/-- Python x and y: y when x is truthy, else x. -/
def pyAnd (x y : PyVal) : PyVal := if pyTruthy x then y else x

/-- Python x or y: x when x is truthy, else y. -/
def pyOr (x y : PyVal) : PyVal := if pyTruthy x then x else y

/-- Python str(x) as used by the setters that coerce their input; the exact
rendering of non-string values does not influence any modelled check. -/
def pyToStr : PyVal → String
  | .pstr s => s
  | .pbool true => "True"
  | .pbool false => "False"
  | .pnone => "None"
  | .pnum q => toString q.num
  | _ => "<object>"

/-- Python float(x): numeric identity, bools as 0/1, string parsing with
ValueError on failure, TypeError for other types. -/
def pyFloatOf : PyVal → Except Err ℚ
  | .pnum q => .ok q
  | .pbool b => .ok (if b then 1 else 0)
  | .pstr s =>
    match pyFloat s with
    | some q => .ok q
    | none => .error .valueError
  | _ => .error .typeError

/-- Python int(x): truncation toward zero for numbers (Int.div is
T-division, matching int() on a float), bools as 0/1, string parsing with
ValueError on failure, TypeError for other types. -/
def pyIntOf : PyVal → Except Err ℤ
  | .pnum q => .ok (Int.tdiv q.num (q.den : ℤ))
  | .pbool b => .ok (if b then 1 else 0)
  | .pstr s =>
    match pyParseInt s with
    | some n => .ok n
    | none => .error .valueError
  | _ => .error .typeError

/-- Backing fields of a Cache instance.  A field holding none has never been
set; some records a stored (validated) value.  original_location and the
trackable page URL can be explicitly set to Python None, hence their doubly
optional type. -/
structure CacheState where
  url : Option String := none
  wp : Option String := none
  guid : Option String := none
  name : Option String := none
  location : Option Point := none
  original_location : Option (Option Point) := none
  waypoints : Option (List (String × Waypoint)) := none
  ctype : Option CacheType := none
  state : Option Bool := none
  found : Option Bool := none
  size : Option Size := none
  difficulty : Option ℚ := none
  terrain : Option ℚ := none
  author : Option String := none
  hidden : Option PyDate := none
  attributes : Option (List (String × Bool)) := none
  summary : Option String := none
  description : Option String := none
  hint : Option String := none
  favorites : Option ℤ := none
  pm_only : Option Bool := none
  logbook_token : Option String := none
  trackable_page_url : Option (Option String) := none
  deriving DecidableEq, Repr

/-- The empty cache state: nothing has ever been set. -/
def CacheState.empty : CacheState := {}

/-- Insert into an insertion-ordered string-keyed dictionary, overwriting in
place as a Python dict does. -/
def dictInsert (m : List (String × Bool)) (k : String) (v : Bool) : List (String × Bool) :=
  if m.any (fun e => e.1 = k) then
    m.map (fun e => if e.1 = k then (k, v) else e)
  else m ++ [(k, v)]

/-- Validation core of the wp setter: str(wp).upper().strip() must start
with "GC", else errors.ValueError. -/
def set_wp_core (v : String) : Except Err String :=
  let w := pyStrip (pyUpper v)
  if pyStartswith w "GC" then .ok w else .error .valueError

/-- Hexadecimal lowercase digit test, the character class [0-9a-f]. -/
def isHexLower (c : Char) : Bool := c.isDigit || ('a' ≤ c && c ≤ 'f')

/-- Validation core of the guid setter: after strip, the value must match
8-4-4-4-12 groups of [0-9a-f], else errors.ValueError. -/
def set_guid_core (v : String) : Except Err String :=
  let g := pyStrip v
  let parts := pySplitChar '-' g
  if parts.map (fun p => p.data.length) = [8, 4, 4, 4, 12]
      && parts.all (fun p => p.data.all isHexLower) then
    .ok g
  else .error .valueError

/-- Multiplication of a rational by ten, the value*10 of the rating check,
written with Rat.divInt so that it evaluates inside the kernel. -/
def ratTimes10 (q : ℚ) : ℚ := Rat.divInt (q.num * 10) (q.den : ℤ)

/-- Python float modulo r % 5 for the rating check: r - 5*floor(r/5),
written with integer floor division (Int.fdiv) over the numerator and
denominator so that it evaluates inside the kernel.  Python float modulo on
the exact decimal values reaching this check agrees with exact rational
arithmetic. -/
def pyFloatMod5 (r : ℚ) : ℚ :=
  Rat.divInt (r.num - 5 * Int.fdiv r.num (5 * (r.den : ℤ)) * (r.den : ℤ)) (r.den : ℤ)

/-- Validation core of the difficulty and terrain setters: the coerced float
must lie in [1, 5] with value*10 % 5 == 0, else errors.ValueError. -/
def rating_core (q : ℚ) : Except Err ℚ :=
  if q < 1 ∨ 5 < q ∨ pyFloatMod5 (ratTimes10 q) ≠ 0 then .error .valueError
  else .ok q

/-- Validation core of the hidden setter over the raw value: a str is passed
through parse_date, an exact datetime.date is stored, anything else (a
datetime.datetime subclass instance included) raises errors.ValueError. -/
def set_hidden_core (v : PyVal) : Except Err PyDate :=
  match v with
  | .pstr s => parse_date s
  | .pdate d => .ok d
  | _ => .error .valueError

/-- Validation core of the location setter: a str is parsed with
Point.from_string, an exact Point is stored, anything else (a Point subclass
instance included) raises errors.ValueError. -/
def set_location_core (v : PyVal) : Except Err Point :=
  match v with
  | .pstr s => Point.from_string s
  | .ppoint p => .ok p
  | _ => .error .valueError

/-- Validation core of the original_location setter: as the location setter
but additionally accepting Python None. -/
def set_original_location_core (v : PyVal) : Except Err (Option Point) :=
  match v with
  | .pstr s => (Point.from_string s).map some
  | .ppoint p => .ok (some p)
  | .pnone => .ok none
  | _ => .error .valueError

/-- Validation core of the type setter: an exact Type value is stored,
anything else is passed to Type.from_string, which needs a str (other
values hit str methods and raise AttributeError, modelled as such). -/
def set_type_core (v : PyVal) : Except Err CacheType :=
  match v with
  | .ptype t => .ok t
  | .pstr s => CacheType.from_string s
  | _ => .error .attributeError

/-- Validation core of the size setter: an exact Size value is stored,
anything else is passed to Size.from_string. -/
def set_size_core (v : PyVal) : Except Err Size :=
  match v with
  | .psize sz => .ok sz
  | .pstr s => Size.from_string s
  | _ => .error .attributeError

/-- One step of the attributes setter loop: a str key is normalized and
kept only when in the registry (unknown keys are dropped with a logged
warning); a non-str key hits str methods and raises AttributeError with the
partially rebuilt dictionary left in place. -/
def attributes_loop : List (PyVal × Bool) → List (String × Bool) → List (String × Bool) × Option Err
  | [], acc => (acc, none)
  | (k, v) :: rest, acc =>
    match k with
    | .pstr s =>
      let nm := pyLower (pyStrip s)
      if possible_attributes.contains nm then
        attributes_loop rest (dictInsert acc nm v)
      else
        attributes_loop rest acc
    | _ => (acc, some .attributeError)

/-- The attributes setter: a non-dict input raises errors.ValueError before
any mutation; a dict input first replaces the backing field with an empty
dictionary and then validates entry by entry. -/
def set_attributes (v : PyVal) (c : CacheState) : CacheState × Option Err :=
  match v with
  | .pdict entries =>
    let (m, e) := attributes_loop entries []
    ({ c with attributes := some m }, e)
  | _ => (c, some .valueError)

/-- Invocation of one Cache field setter with one Python value. -/
inductive SetterCall where
  | wp (v : PyVal)
  | guid (v : PyVal)
  | name (v : PyVal)
  | location (v : PyVal)
  | original_location (v : PyVal)
  | waypoints (w : List (String × Waypoint))
  | ctype (v : PyVal)
  | state (v : PyVal)
  | found (v : PyVal)
  | size (v : PyVal)
  | difficulty (v : PyVal)
  | terrain (v : PyVal)
  | author (v : PyVal)
  | hidden (v : PyVal)
  | attributes (v : PyVal)
  | summary (v : PyVal)
  | description (v : PyVal)
  | hint (v : PyVal)
  | favorites (v : PyVal)
  | pm_only (v : PyVal)

/-- Apply a setter to the state, returning the state afterwards together
with the exception that escaped, if any.  Every raise except the one inside
the attributes loop happens before the backing field assignment. -/
def applySetter : SetterCall → CacheState → CacheState × Option Err
  | .wp v, c =>
    match set_wp_core (pyToStr v) with
    | .ok w => ({ c with wp := some w }, none)
    | .error e => (c, some e)
  | .guid v, c =>
    match v with
    | .pstr s =>
      match set_guid_core s with
      | .ok g => ({ c with guid := some g }, none)
      | .error e => (c, some e)
    | _ => (c, some .attributeError)
  | .name v, c => ({ c with name := some (pyStrip (pyToStr v)) }, none)
  | .location v, c =>
    match set_location_core v with
    | .ok p => ({ c with location := some p }, none)
    | .error e => (c, some e)
  | .original_location v, c =>
    match set_original_location_core v with
    | .ok p => ({ c with original_location := some p }, none)
    | .error e => (c, some e)
  | .waypoints w, c => ({ c with waypoints := some w }, none)
  | .ctype v, c =>
    match set_type_core v with
    | .ok t => ({ c with ctype := some t }, none)
    | .error e => (c, some e)
  | .state v, c => ({ c with state := some (pyTruthy v) }, none)
  | .found v, c => ({ c with found := some (pyTruthy v) }, none)
  | .size v, c =>
    match set_size_core v with
    | .ok sz => ({ c with size := some sz }, none)
    | .error e => (c, some e)
  | .difficulty v, c =>
    match pyFloatOf v with
    | .ok q =>
      match rating_core q with
      | .ok q => ({ c with difficulty := some q }, none)
      | .error e => (c, some e)
    | .error e => (c, some e)
  | .terrain v, c =>
    match pyFloatOf v with
    | .ok q =>
      match rating_core q with
      | .ok q => ({ c with terrain := some q }, none)
      | .error e => (c, some e)
    | .error e => (c, some e)
  | .author v, c => ({ c with author := some (pyStrip (pyToStr v)) }, none)
  | .hidden v, c =>
    match set_hidden_core v with
    | .ok d => ({ c with hidden := some d }, none)
    | .error e => (c, some e)
  | .attributes v, c => set_attributes v c
  | .summary v, c => ({ c with summary := some (pyStrip (pyToStr v)) }, none)
  | .description v, c => ({ c with description := some (pyStrip (pyToStr v)) }, none)
  | .hint v, c => ({ c with hint := some (pyStrip (pyToStr v)) }, none)
  | .favorites v, c =>
    match pyIntOf v with
    | .ok n => ({ c with favorites := some n }, none)
    | .error e => (c, some e)
  | .pm_only v, c => ({ c with pm_only := some (pyTruthy v) }, none)

/-- Part of the list returned by s.split(needle) at index 1: the text after
the first occurrence and before a second occurrence of the needle; none
models the IndexError of a missing occurrence. -/
def partAfterFirst (needle : List Char) (l : List Char) : Option (List Char) :=
  (splitFirstSub needle l).map (fun p =>
    match splitFirstSub needle p.2 with
    | some q => q.1
    | none => p.2)

/-- Part of the list returned by s.split(needle) at index 0: the text before
the first occurrence, or the whole text when the needle is absent. -/
def partBeforeFirst (needle : List Char) (l : List Char) : List Char :=
  match splitFirstSub needle l with
  | some p => p.1
  | none => l

/-- Attempt to match the regular expression userToken\s*=\s*'([^']+)' at the
head of the list, returning the captured group. -/
def matchUserTokenAt (cs : List Char) : Option String :=
  if startsW ("userToken").data cs then
    match (cs.drop 9).dropWhile isSpaceChar with
    | '=' :: rest =>
      match rest.dropWhile isSpaceChar with
      | '\'' :: rest2 =>
        let tok := rest2.takeWhile (fun c => c ≠ '\'')
        if tok.isEmpty then none
        else
          match rest2.drop tok.length with
          | '\'' :: _ => some ⟨tok⟩
          | _ => none
      | _ => none
    | _ => none
  else none

/-- Leftmost match of the userToken pattern, re.findall(...)[0]; none models
the IndexError of an empty findall result. -/
def findUserToken : List Char → Option String
  | [] => none
  | h :: t =>
    match matchUserTokenAt (h :: t) with
    | some tok => some tok
    | none => findUserToken t

/-- The parsed full detail page, as the document-tree collaborator returns
its pieces to Cache.load.  Fields for elements whose absence the code
handles are optional; the others are assumed located (the claims under
check all concern well-formed documents). -/
structure DetailDoc where
  pm_banner : Bool := false
  pm_gccode : String := ""
  pm_name : String := ""
  pm_author : String := ""
  pm_details_text : String := ""
  pm_type_img_src : String := ""
  title : Option String := none
  h2_name : String := ""
  author_link : String := ""
  size_img_src : String := ""
  dt_alts : List String := []
  type_img_src : String := ""
  pm_warning : Option String := none
  hidden_div : String := ""
  uxLatLon : String := ""
  old_warning : Bool := false
  found_status : Option String := none
  attr_srcs : List String := []
  user_content : List (String × String) := []
  hint_text : String := ""
  favorite_value : Option String := none
  js_content : String := ""
  inventory_links : ℕ := 0
  trackable_href : String := ""
  waypoints_table : Option (List WaypointRow) := none
  deriving Repr

/-- The found-status expression of Cache.load line 630, with Python
truthiness semantics made explicit:
found and ("Found It!" or "Attended" in found.text) or False.
The found element is a document tag (truthy) or None; the inner
subexpression is only reached when the element exists, as in Python. -/
def found_expr (d : Option String) : PyVal :=
  let elemv : PyVal := match d with | none => .pnone | some _ => .pelem
  let inner : PyVal :=
    match d with
    | none => .pnone
    | some text => pyOr (.pstr "Found It!") (.pbool (pyIn "Attended" text))
  pyOr (pyAnd elemv inner) (.pbool false)

/-- The found flag stored by Cache.load: the expression above passed through
the found setter, which applies bool(). -/
def found_flag (d : Option String) : Bool := pyTruthy (found_expr d)

/-- The found flag as the specification intends it: true exactly when the
found-status element exists and its text contains one of the two marker
phrases.  This definition follows the words of the spec, for comparison
with found_flag, which follows the code. -/
def found_spec (d : Option String) : Bool :=
  match d with
  | none => false
  | some text => pyIn "Found It!" text || pyIn "Attended" text

/-- The attribute-icon list comprehension of Cache.load line 633 together
with the tuple unpacking of line 635: each src keeps the part after the
last slash and is rsplit once on a dash; a token without a dash yields a
one-element list whose unpacking raises ValueError. -/
def attr_pairs : List String → Except Err (List (String × String))
  | [] => .ok []
  | s :: rest =>
    match rsplitOnceChar '-' (lastSlashPart s).data with
    | some (before, after) =>
      (attr_pairs rest).map (fun l => (⟨before⟩, ⟨after⟩) :: l)
    | none => .error .valueError

/-- The dict comprehension of Cache.load line 635: pairs whose appendix
starts with "blank" are dropped, the rest map their name to whether the
appendix starts with "yes". -/
def attr_dict_comp (pairs : List (String × String)) : List (String × Bool) :=
  pairs.foldl
    (fun m p =>
      if pyStartswith p.2 "blank" then m
      else dictInsert m p.1 (pyStartswith p.2 "yes"))
    []

/-- Mapping of D/T images to floats: [float(img.get("alt").split()[0]) for
img in D_and_T_img]; an all-whitespace alt raises IndexError, a non-numeric
first word raises ValueError. -/
def dt_floats : List String → Except Err (List ℚ)
  | [] => .ok []
  | alt :: rest =>
    match (pyWsSplit alt).head? with
    | none => .error .indexError
    | some w =>
      match pyFloat w with
      | none => .error .valueError
      | some q => (dt_floats rest).map (fun l => q :: l)

/-- The original-location extraction of Cache.load lines 650-652:
js_content.split("oldLatLng":")[1].split(rbracket)[0].split(lbracket)[1],
only evaluated when the marker occurs in the script content. -/
def old_lat_long (js : String) : Option String :=
  (partAfterFirst ("oldLatLng\":").data js.data).bind (fun afterMarker =>
    (partAfterFirst ['['] (partBeforeFirst [']'] afterMarker)).map
      (fun l => ⟨l⟩))

/-- Cache.load, the full population strategy.  The input document is the
parsed detail page the single network fetch returns; the result is the
state after the call, the number of network fetches performed (0 or 1) and
the exception that escaped, if any.  State updates follow the source order,
so a raise mid-way leaves the fields assigned before it set. -/
def load (doc : DetailDoc) (c0 : CacheState) : CacheState × ℕ × Option Err :=
  if c0.url = none ∧ c0.wp = none then (c0, 0, some .loadError)
  else
    let c := { c0 with pm_only := some doc.pm_banner }
    if doc.pm_banner then
      -- reduced field set available to basic members for PM only caches
      match set_wp_core (pyStrip doc.pm_gccode) with
      | .error _ => (c, 1, some .valueError)
      | .ok w =>
      let c := { c with wp := some w }
      let c := { c with name := some (pyStrip (pyStrip doc.pm_name)) }
      let c := { c with author := some (pyStrip ⟨doc.pm_author.data.drop ("A cache by ").length⟩) }
      let details := pySplitChar '\n' doc.pm_details_text
      match details.get? 2 with
      | none => (c, 1, some .indexError)
      | some d2 =>
      match pyFloat d2 with
      | none => (c, 1, some .valueError)
      | some dq =>
      match rating_core dq with
      | .error e => (c, 1, some e)
      | .ok dq =>
      let c := { c with difficulty := some dq }
      match details.get? 5 with
      | none => (c, 1, some .indexError)
      | some d5 =>
      match pyFloat d5 with
      | none => (c, 1, some .valueError)
      | some tq =>
      match rating_core tq with
      | .error e => (c, 1, some e)
      | .ok tq =>
      let c := { c with terrain := some tq }
      match details.get? 8 with
      | none => (c, 1, some .indexError)
      | some d8 =>
      match Size.from_string d8 with
      | .error e => (c, 1, some e)
      | .ok sz =>
      let c := { c with size := some sz }
      match details.get? 11 with
      | none => (c, 1, some .indexError)
      | some d11 =>
      match pyParseInt d11 with
      | none => (c, 1, some .valueError)
      | some fav =>
      let c := { c with favorites := some fav }
      match CacheType.from_filename (filenameNoExt (lastSlashPart doc.pm_type_img_src)) with
      | .error e => (c, 1, some e)
      | .ok ty =>
      let c := { c with ctype := some ty }
      -- if self.pm_only: raise errors.PMOnlyException()
      (c, 1, some .pmOnly)
    else
      -- full field set
      match doc.title with
      | none => (c, 1, some .loadError)
      | some title =>
      match set_wp_core (((pySplitChar ' ' title).head?).getD "") with
      | .error _ => (c, 1, some .loadError)
      | .ok w =>
      let c := { c with wp := some w }
      let c := { c with name := some (pyStrip doc.h2_name) }
      let c := { c with author := some (pyStrip doc.author_link) }
      match Size.from_filename (filenameNoExt (lastSlashPart doc.size_img_src)) with
      | .error e => (c, 1, some e)
      | .ok sz =>
      let c := { c with size := some sz }
      match dt_floats doc.dt_alts with
      | .error e => (c, 1, some e)
      | .ok dts =>
      match dts with
      | [dq, tq] =>
        (match rating_core dq with
        | .error e => (c, 1, some e)
        | .ok dq =>
        let c := { c with difficulty := some dq }
        match rating_core tq with
        | .error e => (c, 1, some e)
        | .ok tq =>
        let c := { c with terrain := some tq }
        match CacheType.from_filename (filenameNoExt (lastSlashPart doc.type_img_src)) with
        | .error e => (c, 1, some e)
        | .ok ty =>
        let c := { c with ctype := some ty }
        -- pm_only re-checked from the warning paragraph:
        -- pm_only_warning and ("Premium Member Only" in text) or False
        let c := { c with pm_only := some (pyTruthy (pyOr
          (pyAnd (match doc.pm_warning with | none => .pnone | some _ => .pelem)
                 (match doc.pm_warning with
                  | none => .pnone
                  | some text => .pbool (pyIn "Premium Member Only" text)))
          (.pbool false))) }
        match parse_date ((pySplitChar ':' doc.hidden_div).getLastD "") with
        | .error e => (c, 1, some e)
        | .ok hd =>
        let c := { c with hidden := some hd }
        match Point.from_string doc.uxLatLon with
        | .error e => (c, 1, some e)
        | .ok loc =>
        let c := { c with location := some loc }
        let c := { c with state := some (!doc.old_warning) }
        let c := { c with found := some (found_flag doc.found_status) }
        match attr_pairs doc.attr_srcs with
        | .error e => (c, 1, some e)
        | .ok pairs =>
        let comp := attr_dict_comp pairs
        let (attrs, ae) := attributes_loop (comp.map (fun p => (.pstr p.1, p.2))) []
        let c := { c with attributes := some attrs }
        match ae with
        | some e => (c, 1, some e)
        | none =>
        match doc.user_content.get? 0, doc.user_content.get? 1 with
        | some uc0, some uc1 =>
          (let c := { c with summary := some (pyStrip uc0.1) }
          let c := { c with description := some (pyStrip uc1.2) }
          let c := { c with hint := some (pyStrip (rot13 (pyStrip doc.hint_text))) }
          match (match doc.favorite_value with
                 | none => some (0 : ℤ)
                 | some s => pyParseInt s) with
          | none => (c, 1, some .valueError)
          | some fav =>
          let c := { c with favorites := some fav }
          match findUserToken doc.js_content.data with
          | none => (c, 1, some .indexError)
          | some token =>
          let c := { c with logbook_token := some token }
          match (if pyIn "oldLatLng\":" doc.js_content then
                   match old_lat_long doc.js_content with
                   | none => .error Err.indexError
                   | some s =>
                     match Point.ofText s with
                     | .ok p => .ok (some p)
                     | .error e => Except.error e
                 else .ok none : Except Err (Option Point)) with
          | .error e => (c, 1, some e)
          | .ok ol =>
          let c := { c with original_location := some ol }
          let turl : Option String :=
            if doc.inventory_links ≥ 3
            then some ⟨doc.trackable_href.data.drop 3⟩
            else none
          let c := { c with trackable_page_url := some turl }
          let c := { c with waypoints := some (Waypoint.from_html doc.waypoints_table) }
          (c, 1, none))
        | _, _ => (c, 1, some .indexError))
      | _ => (c, 1, some .valueError)

/-- The lazily loaded fields of a Cache: exactly the properties carrying the
lazy_loaded decorator in cache.py. -/
inductive LazyField where
  | name
  | location
  | original_location
  | waypoints
  | ctype
  | state
  | found
  | size
  | difficulty
  | terrain
  | author
  | hidden
  | attributes
  | summary
  | description
  | hint
  | favorites
  | logbook_token
  | trackable_page_url
  deriving DecidableEq, Repr, Fintype

/-- Whether the backing field of a lazily loaded property has ever been set
(a field explicitly set to None counts as set). -/
def isSet (f : LazyField) (c : CacheState) : Bool :=
  match f with
  | .name => c.name.isSome
  | .location => c.location.isSome
  | .original_location => c.original_location.isSome
  | .waypoints => c.waypoints.isSome
  | .ctype => c.ctype.isSome
  | .state => c.state.isSome
  | .found => c.found.isSome
  | .size => c.size.isSome
  | .difficulty => c.difficulty.isSome
  | .terrain => c.terrain.isSome
  | .author => c.author.isSome
  | .hidden => c.hidden.isSome
  | .attributes => c.attributes.isSome
  | .summary => c.summary.isSome
  | .description => c.description.isSome
  | .hint => c.hint.isSome
  | .favorites => c.favorites.isSome
  | .logbook_token => c.logbook_token.isSome
  | .trackable_page_url => c.trackable_page_url.isSome

/-- Modelled from the spec: the lazy attribute resolver
(pycaching.util.lazy_loaded, not under src/) wraps each field getter; when
the backing field has never been set it invokes the entity's default
population strategy (the full strategy, load) exactly once and re-reads the
field, and a failure of that load propagates to the caller of the field
access; when the field is already set it does nothing extra.  Returns the
state afterwards, the number of network fetches performed by this access,
and the exception the access raised, if any. -/
def lazyGet (f : LazyField) (doc : DetailDoc) (c : CacheState) :
    CacheState × ℕ × Option Err :=
  if isSet f c then (c, 0, none)
  else load doc c

/-- Two successive lazy reads on the same entity: total fetch count. -/
def lazyTwoFetches (f1 f2 : LazyField) (doc : DetailDoc) (c : CacheState) : ℕ :=
  let r1 := lazyGet f1 doc c
  let r2 := lazyGet f2 doc r1.1
  r1.2.1 + r2.2.1

/-- Result of running the load_logbook generator to completion: the logs it
yielded, the number of page fetches it made and the error that escaped, if
any.  A raise of StopIteration inside the generator ends the yielded
sequence, the semantics of generators at the vintage of this code. -/
structure LogbookRun where
  logs : List LogRec
  fetches : ℕ
  err : Option Err
  deriving DecidableEq, Repr

/-- One page as _logbook_get_page delivers it: the data list of a success
response, or the LoadError raised for a non-success status. -/
def LogbookPage := Except Err (List LogData)

/-- The load_logbook loop over scripted server pages, with the remaining
limit counter threaded through.  Per iteration: one page fetch; a
non-success response raises LoadError at once; an empty page ends the
sequence; otherwise each record first decrements the limit, a negative
counter ends the sequence mid-page, and the record is yielded as a
constructed Log.  The result is none when the script is exhausted before
the loop terminates. -/
def load_logbook_go : ℕ → List LogbookPage → Option LogbookRun
  | _, [] => none
  | r, page :: rest =>
    match page with
    | .error e => some ⟨[], 1, some e⟩
    | .ok p =>
      if p.isEmpty then some ⟨[], 1, none⟩
      else if r < p.length then some ⟨(p.take r).map mkLog, 1, none⟩
      else
        match load_logbook_go (r - p.length) rest with
        | none => none
        | some run => some ⟨p.map mkLog ++ run.logs, run.fetches + 1, run.err⟩

/-- Cache.load_logbook with a finite limit, run against scripted pages.
The per-request page size min(limit, 100) only shapes the request the
script answers; the yielded sequence depends on the page contents. -/
def load_logbook (limit : ℕ) (pages : List LogbookPage) : Option LogbookRun :=
  load_logbook_go limit pages

/-- Count of log records available to the generator: records on successful
pages before the first empty (or failing) page. -/
def availableLogs : List LogbookPage → ℕ
  | [] => 0
  | .error _ :: _ => 0
  | .ok p :: rest => if p.isEmpty then 0 else p.length + availableLogs rest

/-- The trackable listing page: the links of its second table, each with an
href and the text between the second pair of angle brackets of its raw
form (the name extraction of load_trackables line 849). -/
structure TrackListing where
  links : List (String × String)
  deriving Repr

/-- Result of running the load_trackables generator: the trackables
yielded, the number of detail-page fetches (by the lazy resolution of the
inventory URL), the number of listing-document fetches, and the error that
escaped, if any. -/
structure TrackablesRun where
  trackables : List TrackableRec
  detailFetches : ℕ
  listingFetches : ℕ
  err : Option Err
  deriving DecidableEq, Repr

/-- The limit loop of load_trackables over the name/url pairs: each pair
first decrements the limit, a negative counter ends the sequence. -/
def trackables_take (r : ℕ) (pairs : List (String × String)) : List TrackableRec :=
  (pairs.take r).map (fun p => ⟨p.2, p.1⟩)

/-- Cache.load_trackables run to completion: resolves the inventory-page
URL field lazily (a fetch of the detail document when unset); a falsy URL
(None, or empty) means no trackables and ends the sequence at once with no
listing fetch; otherwise one fetch of the listing document, whose links
with "track" in their href yield trackables up to the limit. -/
def load_trackables (limit : ℕ) (doc : DetailDoc) (listing : TrackListing)
    (c : CacheState) : TrackablesRun :=
  let resolved : Option String × ℕ × Option Err :=
    match c.trackable_page_url with
    | some u => (u, 0, none)
    | none =>
      let (c', n, e) := load doc c
      match e with
      | some err => (none, n, some err)
      | none => ((c'.trackable_page_url).getD none, n, none)
  match resolved with
  | (_, n, some e) => ⟨[], n, 0, some e⟩
  | (u, n, none) =>
    let falsy : Bool := match u with | none => true | some s => s.isEmpty
    if falsy then ⟨[], n, 0, none⟩
    else
      let tracked := listing.links.filter (fun l => pyIn "track" l.1)
      let urls := tracked.map (fun l => l.1)
      let names := tracked.map (fun l => l.2)
      ⟨trackables_take limit (urls.zip names), n, 1, none⟩

/-- The attribute-map pipeline of the full strategy in isolation, from icon
src tokens to the stored attribute dictionary: the list comprehension, the
dict comprehension and the attributes setter loop, composed exactly as
Cache.load composes them. -/
def load_attributes (srcs : List String) : Except Err (List (String × Bool)) :=
  match attr_pairs srcs with
  | .error e => .error e
  | .ok pairs =>
    let (m, e) := attributes_loop ((attr_dict_comp pairs).map (fun p => (.pstr p.1, p.2))) []
    match e with
    | some e => .error e
    | none => .ok m

/-- The exact-runtime-type tests of the setters: _type(x) is str. -/
def isExactStr : PyVal → Bool
  | .pstr _ => true
  | _ => false

/-- The exact-runtime-type test _type(x) is datetime.date; an instance of
the subclass datetime.datetime fails it. -/
def isExactDate : PyVal → Bool
  | .pdate _ => true
  | _ => false

/-- The exact-runtime-type test _type(x) is Point; an instance of a proper
Point subclass fails it. -/
def isExactPoint : PyVal → Bool
  | .ppoint _ => true
  | _ => false

/-- A concrete well-formed non-restricted detail document, used to witness
the universally quantified theorems on concrete inputs. -/
def docFull : DetailDoc := {
  pm_banner := false
  title := some "GC1PAR2 Example Cache"
  h2_name := "Example Cache"
  author_link := "John Doe"
  size_img_src := "/images/icons/container/micro.gif"
  dt_alts := ["1.5 out of 5", "2 out of 5"]
  type_img_src := "/images/WptTypes/2.gif"
  hidden_div := "Hidden : 06/18/2015"
  uxLatLon := "N 49 45.123 E 013 22.123"
  found_status := none
  attr_srcs := ["/images/attributes/dogs-yes.gif", "/images/attributes/kids-no.gif",
                "/images/attributes/parking-blank.gif"]
  user_content := [("summary text", "<p>raw summary</p>"), ("desc text", "<p>raw desc</p>")]
  hint_text := "uvag"
  favorite_value := some "5"
  js_content := "var userToken = 'ABCDEF';"
}

/-- The concrete document above with a found-status element whose text
contains neither marker phrase. -/
def docFound : DetailDoc := { docFull with found_status := some "Did not find it" }

/-- A concrete detail document carrying the restricted-access banner. -/
def docPM : DetailDoc := {
  pm_banner := true
  pm_gccode := "GC3APJD"
  pm_name := "Premium Cache"
  pm_author := "A cache by Jane"
  pm_details_text := "Difficulty\n\n2.5\nTerrain\n\n1.5\nSize\n\nMicro\nFavorites\n\n10"
  pm_type_img_src := "/images/WptTypes/8.gif"
}

/-- A freshly constructed cache: only the GC code is set. -/
def freshGC : CacheState := { wp := some "GC1PAR2" }

/-- A cache state with an attribute dictionary already stored, the prior
value for the setter-atomicity scenarios. -/
def attrPriorState : CacheState := { attributes := some [("dogs", true)] }

/-- A cache whose inventory-page URL field is set to Python None: the full
strategy found fewer than three inventory links. -/
def trackNoneState : CacheState := { trackable_page_url := some none }

/-- A scripted logbook data record. -/
def logDataAt (_ : ℕ) : LogData :=
  ⟨"2.png", "log text", "2015-01-01", "someuser"⟩

/-- A scripted successful logbook page with the given number of records. -/
def logPage (n : ℕ) : LogbookPage :=
  .ok ((List.range n).map logDataAt)

/-- The state Cache.load leaves behind when the document carries the
restricted-access banner and every parse of the reduced field set succeeds:
the identity code, name, author, difficulty, terrain, size, favorites and
type are populated and the restricted flag is set true. -/
def pmLoadedState (c0 : CacheState) (doc : DetailDoc) (w : String) (dq tq : ℚ)
    (sz : Size) (fav : ℤ) (ty : CacheType) : CacheState :=
  { c0 with
    pm_only := some true
    wp := some w
    name := some (pyStrip (pyStrip doc.pm_name))
    author := some (pyStrip ⟨doc.pm_author.data.drop ("A cache by ").length⟩)
    difficulty := some dq
    terrain := some tq
    size := some sz
    favorites := some fav
    ctype := some ty }

/-- Decidable equality of Except values with decidable components. -/
instance instDecEqExcept {ε α : Type} [DecidableEq ε] [DecidableEq α] :
    DecidableEq (Except ε α)
  | .ok x, .ok y =>
    match decEq x y with
    | .isTrue h => .isTrue (h ▸ rfl)
    | .isFalse h => .isFalse (fun hh => h (Except.ok.inj hh))
  | .error x, .error y =>
    match decEq x y with
    | .isTrue h => .isTrue (h ▸ rfl)
    | .isFalse h => .isFalse (fun hh => h (Except.error.inj hh))
  | .ok _, .error _ => .isFalse (fun hh => Except.noConfusion hh)
  | .error _, .ok _ => .isFalse (fun hh => Except.noConfusion hh)

/-- The kernel-friendly value*10 equals the arithmetic one. -/
theorem ratTimes10_eq (q : ℚ) : ratTimes10 q = 10 * q := by
  rw [ratTimes10, Rat.divInt_eq_div]
  push_cast
  rw [mul_comm (q.num : ℚ) 10, mul_div_assoc, Rat.num_div_den]

/-- The float modulo check r % 5 == 0 holds exactly when five times the
denominator divides the numerator. -/
theorem pyFloatMod5_eq_zero_iff (r : ℚ) :
    pyFloatMod5 r = 0 ↔ (5 * (r.den : ℤ)) ∣ r.num := by
  have hd : ((r.den : ℤ)) ≠ 0 := by exact_mod_cast r.den_nz
  have h5d : (5 * (r.den : ℤ)) ≠ 0 := by positivity
  rw [pyFloatMod5, Rat.divInt_eq_zero hd]
  constructor
  · intro h
    exact ⟨Int.fdiv r.num (5 * (r.den : ℤ)), by linarith⟩
  · rintro ⟨k, hk⟩
    rw [hk, Int.mul_fdiv_cancel_left _ h5d]
    ring

/-- A rational is five times an integer exactly when five times its
denominator divides its numerator. -/
theorem five_den_dvd_iff (r : ℚ) :
    (5 * (r.den : ℤ)) ∣ r.num ↔ ∃ k : ℤ, r = ((5 * k : ℤ) : ℚ) := by
  constructor
  · rintro ⟨k, hk⟩
    refine ⟨k, ?_⟩
    have hden : ((r.den : ℚ)) ≠ 0 := by exact_mod_cast r.den_nz
    rw [← Rat.num_div_den r, hk]
    push_cast
    field_simp
    ring
  · rintro ⟨k, hk⟩
    have hdn : r.den = 1 := by rw [hk]; exact Rat.den_intCast _
    have hnm : r.num = 5 * k := by rw [hk]; exact Rat.num_intCast _
    rw [hdn, hnm]
    exact ⟨k, by ring⟩

/-- The full check value*10 % 5 == 0 accepts exactly the multiples of one
half. -/
theorem mod_check_iff (q : ℚ) :
    pyFloatMod5 (ratTimes10 q) = 0 ↔ ∃ k : ℤ, q = (k : ℚ) / 2 := by
  rw [pyFloatMod5_eq_zero_iff, five_den_dvd_iff]
  constructor
  · rintro ⟨k, hk⟩
    rw [ratTimes10_eq] at hk
    push_cast at hk
    exact ⟨k, by linarith⟩
  · rintro ⟨k, hk⟩
    refine ⟨k, ?_⟩
    rw [ratTimes10_eq, hk]
    push_cast
    ring

/-- C8: the enumeration constructors round-trip — for every Type member
(none of whose values is the special-cased "earthcache" filename token),
Type.from_filename(member.value).value equals member.value, and for every
Size member, Size.from_string(member.value) is that member. -/
theorem c8_enum_round_trip :
    (∀ m : CacheType,
        (CacheType.from_filename m.value).map CacheType.value = .ok m.value)
    ∧ (∀ m : Size, Size.from_string m.value = .ok m) :=
  ⟨fun m => by cases m <;> rfl, fun m => by cases m <;> rfl⟩

/-- C4: the claim states the found flag is true iff the found-status text
contains one of the marker phrases; the code instead evaluates
found and ("Found It!" or "Attended" in found.text) or False, whose middle
operand is always the truthy constant "Found It!", so the stored flag is
true exactly when the element exists, whatever its text says.  At the
failing input — a found-status element with text "Did not find it" — a full
load stores found = true while the specified flag is false. -/
theorem c4_found_status_bug :
    (∀ d : Option String, found_flag d = d.isSome)
    ∧ found_flag (some "Did not find it") = true
    ∧ found_spec (some "Did not find it") = false
    ∧ (load docFound freshGC).2.2 = none
    ∧ (load docFound freshGC).1.found = some true := by
  refine ⟨fun d => ?_, rfl, by decide, by decide, by decide⟩
  cases d <;> rfl

/-- C7: the difficulty and terrain setters accept exactly the values in
[1, 5] with value*10 % 5 == 0, that is the multiples of 0.5 in that range;
1, 2.5 and 5 are accepted while 0.5, 5.5 and 2.3 are rejected with
errors.ValueError. -/
theorem c7_rating_validation :
    (∀ q : ℚ, rating_core q = .ok q ↔ (1 ≤ q ∧ q ≤ 5 ∧ ∃ k : ℤ, q = (k : ℚ) / 2))
    ∧ rating_core 1 = .ok 1
    ∧ rating_core (Rat.divInt 5 2) = .ok (Rat.divInt 5 2)
    ∧ rating_core 5 = .ok 5
    ∧ rating_core (Rat.divInt 1 2) = .error .valueError
    ∧ rating_core (Rat.divInt 11 2) = .error .valueError
    ∧ rating_core (Rat.divInt 23 10) = .error .valueError := by
  refine ⟨?_, by decide, by decide, by decide, by decide, by decide, by decide⟩
  intro q
  unfold rating_core
  constructor
  · intro hq
    by_cases hc : q < 1 ∨ 5 < q ∨ pyFloatMod5 (ratTimes10 q) ≠ 0
    · rw [if_pos hc] at hq
      exact absurd hq (by simp)
    · push_neg at hc
      obtain ⟨hg1, hg5, hmod⟩ := hc
      exact ⟨hg1, hg5, (mod_check_iff q).mp hmod⟩
  · rintro ⟨h1, h5, hk⟩
    rw [if_neg]
    push_neg
    exact ⟨h1, h5, (mod_check_iff q).mpr hk⟩

/-- C7 witness: the theorem applied at the concrete value 2.5. -/
theorem c7_rating_validation_witness :
    rating_core (Rat.divInt 5 2) = .ok (Rat.divInt 5 2) :=
  (c7_rating_validation.1 (Rat.divInt 5 2)).mpr
    ⟨by norm_num [Rat.divInt_eq_div], by norm_num [Rat.divInt_eq_div],
     ⟨5, by norm_num [Rat.divInt_eq_div]⟩⟩

/-- C9: a token whose appendix starts with "blank" is omitted, a retained
token maps its name to whether the appendix starts with "yes", an unknown
name is dropped by the setter without an error, and the concrete token
lists of the spec produce exactly the stated dictionaries. -/
theorem c9_attribute_parsing :
    (∀ nm app : String, attr_dict_comp [(nm, app)]
        = if pyStartswith app "blank" then [] else [(nm, pyStartswith app "yes")])
    ∧ (∀ (nm : String) (v : Bool) (acc : List (String × Bool)),
        possible_attributes.contains (pyLower (pyStrip nm)) = false →
        attributes_loop [(.pstr nm, v)] acc = (acc, none))
    ∧ load_attributes ["dogs-yes", "kids-no", "parking-blank"]
        = .ok [("dogs", true), ("kids", false)]
    ∧ load_attributes ["bogus-yes"] = .ok [] := by
  refine ⟨fun nm app => rfl, ?_, by decide, by decide⟩
  intro nm v acc h
  simp only [attributes_loop]
  rw [h]
  rfl

/-- C9 witness: the unknown-key clause applied at the concrete key
"bogus". -/
theorem c9_attribute_parsing_witness :
    attributes_loop [(.pstr "bogus", true)] [] = ([], none) :=
  c9_attribute_parsing.2.1 "bogus" true [] (by decide)

/-- C10: the hidden, location and original_location setters check the exact
runtime type: a datetime.datetime instance (proper subclass of date) and a
Point-subclass instance are rejected with errors.ValueError and nothing is
stored, while exact datetime.date and Point instances are stored; in
general any value that is neither an exact str nor an exact date (resp.
Point) is rejected. -/
theorem c10_exact_type_validation :
    (∀ (d : PyDate) (c : CacheState),
        applySetter (.hidden (.pdatetime d)) c = (c, some .valueError))
    ∧ (∀ (p : Point) (c : CacheState),
        applySetter (.location (.ppointSub p)) c = (c, some .valueError))
    ∧ (∀ (p : Point) (c : CacheState),
        applySetter (.original_location (.ppointSub p)) c = (c, some .valueError))
    ∧ (∀ (v : PyVal) (c : CacheState), isExactStr v = false → isExactDate v = false →
        applySetter (.hidden v) c = (c, some .valueError))
    ∧ (∀ (v : PyVal) (c : CacheState), isExactStr v = false → isExactPoint v = false →
        applySetter (.location v) c = (c, some .valueError))
    ∧ (∀ (d : PyDate) (c : CacheState),
        applySetter (.hidden (.pdate d)) c = ({ c with hidden := some d }, none))
    ∧ (∀ (p : Point) (c : CacheState),
        applySetter (.location (.ppoint p)) c = ({ c with location := some p }, none)) := by
  refine ⟨fun d c => rfl, fun p c => rfl, fun p c => rfl, ?_, ?_,
    fun d c => rfl, fun p c => rfl⟩
  · intro v c h1 h2
    cases v
    case pstr s => simp [isExactStr] at h1
    case pdate d => simp [isExactDate] at h2
    all_goals rfl
  · intro v c h1 h2
    cases v
    case pstr s => simp [isExactStr] at h1
    case ppoint p => simp [isExactPoint] at h2
    all_goals rfl

/-- C10 witness: the general rejection clause applied at a number assigned
to hidden. -/
theorem c10_exact_type_validation_witness :
    applySetter (.hidden (.pnum 3)) CacheState.empty
      = (CacheState.empty, some .valueError) :=
  c10_exact_type_validation.2.2.2.1 (.pnum 3) CacheState.empty rfl rfl

/-- Helper: a load of the full strategy that raises nothing made exactly
one network fetch and left every lazily loaded field set. -/
theorem load_ok_spec (doc : DetailDoc) (c0 c' : CacheState) (n : ℕ)
    (hL : load doc c0 = (c', n, none)) :
    n = 1 ∧ ∀ f, isSet f c' = true := by
  unfold load at hL
  repeat' ((try simp only [] at hL); split at hL)
  all_goals
    (injection hL with h1 h23
     injection h23 with h2 h3
     first
       | exact Option.noConfusion h3
       | (subst h1; subst h2; exact ⟨rfl, fun f => by cases f <;> rfl⟩))

/-- C1: on a fresh full-identity entity whose detail document loads without
error, the full strategy makes one fetch and sets every lazily loaded field
it knows about, so reading any two never-yet-set fields triggers exactly
one network fetch in total. -/
theorem c1_lazy_trigger_idempotent (doc : DetailDoc) (c0 : CacheState)
    (f1 f2 : LazyField)
    (hfresh : ∀ f, isSet f c0 = false)
    (hok : (load doc c0).2.2 = none) :
    lazyTwoFetches f1 f2 doc c0 = 1
    ∧ (∀ f, isSet f (load doc c0).1 = true) := by
  rcases hL : load doc c0 with ⟨c', n, e⟩
  have he : e = none := by rw [hL] at hok; exact hok
  subst he
  obtain ⟨hn, hall⟩ := load_ok_spec doc c0 c' n hL
  subst hn
  constructor
  · unfold lazyTwoFetches lazyGet
    simp [hfresh f1, hL, hall f2]
  · exact fun f => hall f

/-- C1 witness: the theorem applied to a concrete fresh entity and
document, reading location and then hint. -/
theorem c1_lazy_trigger_idempotent_witness :
    lazyTwoFetches .location .hint docFull freshGC = 1 :=
  (c1_lazy_trigger_idempotent docFull freshGC .location .hint
    (by decide) (by decide)).1

/-- Helper: on a document with the restricted-access banner whose reduced
field set parses, the full strategy returns the partially populated state
and raises PMOnlyException after one fetch, from any starting state with
enough identity to fetch. -/
theorem load_pm_eq (doc : DetailDoc) (c0 : CacheState) (w s2 s5 s8 s11 : String)
    (dq tq : ℚ) (sz : Size) (fav : ℤ) (ty : CacheType)
    (hid : ¬(c0.url = none ∧ c0.wp = none))
    (hpm : doc.pm_banner = true)
    (hw : set_wp_core (pyStrip doc.pm_gccode) = .ok w)
    (h2 : (pySplitChar '\n' doc.pm_details_text).get? 2 = some s2)
    (h2f : pyFloat s2 = some dq) (h2r : rating_core dq = .ok dq)
    (h5 : (pySplitChar '\n' doc.pm_details_text).get? 5 = some s5)
    (h5f : pyFloat s5 = some tq) (h5r : rating_core tq = .ok tq)
    (h8 : (pySplitChar '\n' doc.pm_details_text).get? 8 = some s8)
    (h8s : Size.from_string s8 = .ok sz)
    (h11 : (pySplitChar '\n' doc.pm_details_text).get? 11 = some s11)
    (h11i : pyParseInt s11 = some fav)
    (hty : CacheType.from_filename (filenameNoExt (lastSlashPart doc.pm_type_img_src)) = .ok ty) :
    load doc c0 = (pmLoadedState c0 doc w dq tq sz fav ty, 1, some .pmOnly) := by
  unfold load
  rw [if_neg hid]
  simp only [hpm, if_true, hw, h2, h2f, h2r, h5, h5f, h5r, h8, h8s, h11, h11i, hty]
  rfl

/-- C2: when the detail document carries the restricted-access banner, one
load populates the identity code, name, author, difficulty, terrain, size,
favorites and type, sets the restricted flag, and signals PMOnlyException
(not a LoadError); the populated fields stay set and readable without a
further fetch, while reading the never-populated location triggers a fetch
that raises again instead of returning a silent default. -/
theorem c2_pm_only_partial_population (doc : DetailDoc) (c0 : CacheState)
    (w s2 s5 s8 s11 : String)
    (dq tq : ℚ) (sz : Size) (fav : ℤ) (ty : CacheType)
    (hid : ¬(c0.url = none ∧ c0.wp = none))
    (hpm : doc.pm_banner = true)
    (hw : set_wp_core (pyStrip doc.pm_gccode) = .ok w)
    (h2 : (pySplitChar '\n' doc.pm_details_text).get? 2 = some s2)
    (h2f : pyFloat s2 = some dq) (h2r : rating_core dq = .ok dq)
    (h5 : (pySplitChar '\n' doc.pm_details_text).get? 5 = some s5)
    (h5f : pyFloat s5 = some tq) (h5r : rating_core tq = .ok tq)
    (h8 : (pySplitChar '\n' doc.pm_details_text).get? 8 = some s8)
    (h8s : Size.from_string s8 = .ok sz)
    (h11 : (pySplitChar '\n' doc.pm_details_text).get? 11 = some s11)
    (h11i : pyParseInt s11 = some fav)
    (hty : CacheType.from_filename (filenameNoExt (lastSlashPart doc.pm_type_img_src)) = .ok ty)
    (hloc : c0.location = none) :
    load doc c0 = (pmLoadedState c0 doc w dq tq sz fav ty, 1, some .pmOnly)
    ∧ (load doc c0).2.2 = some .pmOnly
    ∧ (load doc c0).2.2 ≠ some .loadError
    ∧ (load doc c0).1.pm_only = some true
    ∧ (load doc c0).1.location = none
    ∧ (lazyGet .name doc (load doc c0).1).2 = (0, none)
    ∧ (lazyGet .location doc (load doc c0).1).2 = (1, some .pmOnly) := by
  have h1 := load_pm_eq doc c0 w s2 s5 s8 s11 dq tq sz fav ty
    hid hpm hw h2 h2f h2r h5 h5f h5r h8 h8s h11 h11i hty
  have hid2 : ¬((pmLoadedState c0 doc w dq tq sz fav ty).url = none
      ∧ (pmLoadedState c0 doc w dq tq sz fav ty).wp = none) := by
    simp [pmLoadedState]
  have h2nd := load_pm_eq doc (pmLoadedState c0 doc w dq tq sz fav ty)
    w s2 s5 s8 s11 dq tq sz fav ty
    hid2 hpm hw h2 h2f h2r h5 h5f h5r h8 h8s h11 h11i hty
  refine ⟨h1, by rw [h1], by rw [h1]; simp, by rw [h1]; rfl, by rw [h1]; exact hloc, ?_, ?_⟩
  · rw [h1]
    simp [lazyGet, isSet, pmLoadedState]
  · rw [h1]
    have hsetloc : isSet .location (pmLoadedState c0 doc w dq tq sz fav ty) = false := by
      simp [isSet, pmLoadedState, hloc]
    simp only [lazyGet, hsetloc, Bool.false_eq_true, if_false, h2nd]

/-- C2 witness: the theorem applied to the concrete restricted document. -/
theorem c2_pm_only_partial_population_witness :
    (lazyGet .location docPM (load docPM freshGC).1).2 = (1, some .pmOnly) :=
  (c2_pm_only_partial_population docPM freshGC "GC3APJD" "2.5" "1.5" "Micro" "10"
    (Rat.divInt 25 10) (Rat.divInt 15 10) .micro 10 .mystery
    (by decide) rfl (by decide) (by decide) (by decide) (by decide)
    (by decide) (by decide) (by decide) (by decide) (by decide)
    (by decide) (by decide) (by decide) rfl).2.2.2.2.2.2

/-- C3: the logbook generator yields exactly min(limit, available records)
and ends the produced sequence cleanly: an empty page ends it after that
fetch with no further page fetch, the exhausted limit counter ends it
mid-page, and with scripted pages of sizes 25, 25 and 0 and limit 40 it
yields exactly 40 logs in two fetches. -/
theorem c3_logbook_limit :
    (∀ (L : ℕ) (pages : List LogbookPage) (run : LogbookRun),
        load_logbook L pages = some run → run.err = none →
        run.logs.length = min L (availableLogs pages))
    ∧ (∀ (L : ℕ) (rest : List LogbookPage),
        load_logbook L (.ok [] :: rest) = some ⟨[], 1, none⟩)
    ∧ (load_logbook 40 [logPage 25, logPage 25, logPage 0]).map
        (fun r => (r.logs.length, r.fetches, r.err)) = some (40, 2, none) := by
  refine ⟨?_, fun L rest => rfl, by decide⟩
  intro L pages
  induction pages generalizing L with
  | nil =>
    intro run h herr
    simp [load_logbook, load_logbook_go] at h
  | cons page rest ih =>
    intro run h herr
    cases page with
    | error e =>
      simp only [load_logbook, load_logbook_go] at h
      obtain rfl : ({ logs := [], fetches := 1, err := some e } : LogbookRun) = run :=
        Option.some.inj h
      simp at herr
    | ok p =>
      by_cases hp : p.isEmpty
      · simp only [load_logbook, load_logbook_go, hp, if_true] at h
        obtain rfl : ({ logs := [], fetches := 1, err := none } : LogbookRun) = run :=
          Option.some.inj h
        simp [availableLogs, hp]
      · by_cases hr : L < p.length
        · simp only [load_logbook, load_logbook_go, hp, hr, if_true, if_false,
            Bool.false_eq_true] at h
          obtain rfl :
              ({ logs := (p.take L).map mkLog, fetches := 1, err := none } : LogbookRun) = run :=
            Option.some.inj h
          simp only [availableLogs, hp, List.length_map, List.length_take,
            Bool.false_eq_true, if_false]
          omega
        · simp only [load_logbook, load_logbook_go, hp, hr, if_false,
            Bool.false_eq_true] at h
          cases hrec : load_logbook_go (L - p.length) rest with
          | none => rw [hrec] at h; exact Option.noConfusion h
          | some run' =>
            rw [hrec] at h
            obtain rfl :
                ({ logs := p.map mkLog ++ run'.logs, fetches := run'.fetches + 1,
                   err := run'.err } : LogbookRun) = run :=
              Option.some.inj h
            have herr' : run'.err = none := herr
            have ihlen := ih (L - p.length) run' hrec herr'
            simp only [availableLogs, hp, List.length_append, List.length_map,
              Bool.false_eq_true, if_false]
            omega

/-- C3 witness: the counting clause applied to a concrete limit of two and
one scripted page of three records. -/
theorem c3_logbook_limit_witness :
    ((((List.range 3).map logDataAt).take 2).map mkLog).length
      = min 2 (availableLogs [logPage 3]) :=
  c3_logbook_limit.1 2 [logPage 3]
    ⟨(((List.range 3).map logDataAt).take 2).map mkLog, 1, none⟩ (by decide) rfl

/-- Helper: the attributes setter loop never raises errors.ValueError; its
only possible exception is the AttributeError of a non-string key. -/
theorem attributes_loop_no_value_error (entries : List (PyVal × Bool)) :
    ∀ acc, (attributes_loop entries acc).2 ≠ some Err.valueError := by
  induction entries with
  | nil => intro acc; simp [attributes_loop]
  | cons e rest ih =>
    intro acc
    obtain ⟨k, v⟩ := e
    cases k
    case pstr s =>
      simp only [attributes_loop]
      split
      · exact ih _
      · exact ih _
    all_goals simp [attributes_loop]

/-- C5 as amended: every raise of errors.ValueError by a setter happens
before the backing field assignment and leaves the state unchanged; the
attributes setter, however, replaces the backing field with the dictionary
rebuilt so far whatever happens during its loop, so the failure of a
non-string key loses the prior value (see the counterexample). -/
theorem c5_value_error_leaves_field :
    (∀ (call : SetterCall) (c : CacheState),
        (applySetter call c).2 = some Err.valueError → (applySetter call c).1 = c)
    ∧ (∀ (entries : List (PyVal × Bool)) (c : CacheState),
        (applySetter (.attributes (.pdict entries)) c).1.attributes
          = some (attributes_loop entries []).1) := by
  constructor
  · intro call c h
    cases call
    case attributes v =>
      cases v
      case pdict entries =>
        have hne := attributes_loop_no_value_error entries []
        simp only [applySetter, set_attributes] at h
        exact absurd h hne
      all_goals rfl
    all_goals
      (revert h
       simp only [applySetter]
       repeat' split
       all_goals (intro h; first | rfl | simp at h))
  · intro entries c
    rfl

/-- C5 witness: the amended theorem applied at a concrete rejected GC
code. -/
theorem c5_value_error_leaves_field_witness :
    (applySetter (.wp (.pstr "xyz")) CacheState.empty).1 = CacheState.empty :=
  c5_value_error_leaves_field.1 (.wp (.pstr "xyz")) CacheState.empty (by decide)

/-- C5 counterexample: assigning a dictionary whose second entry has a
non-string key raises partway through the attributes setter, and the
backing field afterwards holds the partially rebuilt dictionary, not the
value it held before the assignment — the claimed atomicity fails. -/
theorem c5_attributes_not_atomic :
    (applySetter (.attributes (.pdict [(.pstr "kids", true), (.pnum 5, true)]))
        attrPriorState).2 = some Err.attributeError
    ∧ (applySetter (.attributes (.pdict [(.pstr "kids", true), (.pnum 5, true)]))
        attrPriorState).1.attributes = some [("kids", true)]
    ∧ attrPriorState.attributes = some [("dogs", true)] := by
  exact ⟨rfl, rfl, rfl⟩

/-- C6: when the inventory-page URL field resolves to absent the trackables
generator yields nothing, ends cleanly, and fetches no listing document —
whether the field was already set to None, or was unset and lazily resolved
to None by one detail-page fetch. -/
theorem c6_trackables_empty :
    (∀ (limit : ℕ) (doc : DetailDoc) (listing : TrackListing) (c : CacheState),
        c.trackable_page_url = some none →
        load_trackables limit doc listing c = ⟨[], 0, 0, none⟩)
    ∧ (∀ (limit : ℕ) (doc : DetailDoc) (listing : TrackListing) (c c' : CacheState) (n : ℕ),
        c.trackable_page_url = none →
        load doc c = (c', n, none) →
        c'.trackable_page_url = some none →
        load_trackables limit doc listing c = ⟨[], n, 0, none⟩) := by
  constructor
  · intro limit doc listing c h
    simp [load_trackables, h]
  · intro limit doc listing c c' n h hL h'
    simp [load_trackables, h, hL, h']

/-- C6 witness: the theorem applied to a concrete cache whose inventory
URL is set to None. -/
theorem c6_trackables_empty_witness :
    load_trackables 5 docFull ⟨[]⟩ trackNoneState = ⟨[], 0, 0, none⟩ :=
  c6_trackables_empty.1 5 docFull ⟨[]⟩ trackNoneState rfl

end Pycaching
